import Mathlib

/-!
Shallow embedding of the credential lifecycle and webhook event-processing
pipeline of the Strava→Discord activity bot (source: `src/db.js` and the
Express server in `src/unnamed/part_000`, second document, lines 219–463).

Conventions of the embedding:
* The PostgreSQL `users` table (primary key `athlete_id`) is modelled as an
  association list `Db`; `saveToken` is the `INSERT … ON CONFLICT DO UPDATE`
  upsert and `getToken` the `SELECT … WHERE athlete_id = $1` lookup.
* Network calls (`axios.post` to the token endpoint, `axios.get` for activity
  detail and subscriptions, `axios.post` to the Discord webhook) are modelled
  by passing each call's outcome as an explicit `Except`/argument; handlers
  return a trace of the externally visible actions they perform, in order.
* Timestamps are whole seconds (`Int`); JS numbers for distance, moving time
  and elevation gain are modelled as whole nonnegative units (`Nat`), which is
  exact for every value this development evaluates.
-/

/-- The `(access_token, refresh_token, expires_at)` triple issued by the
Strava token endpoint (`response.data` of the token exchange / refresh). -/
structure Tokens where
  access_token : String
  refresh_token : String
  expires_at : Int
deriving Repr, DecidableEq

/-- The user object returned by `getToken` in `db.js`: the row's
`first_name, access_token, refresh_token, expires_at` columns mapped to the
keys `firstName, accessToken, refreshToken, expiresAt`. `first_name` is a
nullable TEXT column, hence `Option String`. -/
structure UserRecord where
  firstName : Option String
  accessToken : String
  refreshToken : String
  expiresAt : Int
deriving Repr, DecidableEq

/-- The `users` table: rows keyed by `athlete_id` (BIGINT). -/
abbrev Db := List (Int × UserRecord)

/-- The row written by `saveToken`'s VALUES list: `first_name`,
`access_token`, `refresh_token`, `expires_at` taken from the arguments. -/
def mkRecord (firstName : Option String) (t : Tokens) : UserRecord :=
  ⟨firstName, t.access_token, t.refresh_token, t.expires_at⟩

/-- `saveToken(athleteId, athleteFirstName, tokens)` from `db.js`:
`INSERT INTO users … ON CONFLICT (athlete_id) DO UPDATE SET …` — overwrite
the row with key `athleteId` if present, insert a fresh row otherwise. -/
def saveToken : Db → Int → Option String → Tokens → Db
  | [], athleteId, firstName, t => [(athleteId, mkRecord firstName t)]
  | (k, r) :: rest, athleteId, firstName, t =>
    if k = athleteId then (k, mkRecord firstName t) :: rest
    else (k, r) :: saveToken rest athleteId firstName t

/-- `getToken(athleteId)` from `db.js`: `SELECT first_name, access_token,
refresh_token, expires_at FROM users WHERE athlete_id = $1`, returning `null`
(here `none`) when no row exists. -/
def getToken : Db → Int → Option UserRecord
  | [], _ => none
  | (k, r) :: rest, athleteId => if k = athleteId then some r else getToken rest athleteId

/-- The set of athlete ids present in the table. -/
def keys (db : Db) : List Int := db.map Prod.fst

/-- Number of rows whose key is `athleteId`. -/
def countKey (db : Db) (athleteId : Int) : Nat :=
  db.countP (fun p => p.1 == athleteId)

/-- Result of one `getValidToken` call: the value returned to the caller
(`null` modelled as `none`), the table state after the call, and the list of
`refresh_token` values sent to the Strava token endpoint (one entry per
refresh request issued). -/
structure TokenResult where
  result : Option UserRecord
  db : Db
  refreshRequests : List String
deriving Repr, DecidableEq

/-- `getValidToken(athleteId)` from the server (part_000 lines 371–402).
`refreshResp` is the outcome of the `axios.post(STRAVA_TOKEN_URL, …)` call,
supplied as an argument since the network is external. The JS condition is
`Date.now() / 1000 > user.expiresAt - 300`; `now` is the current time in
seconds. On refresh success the code runs
`saveToken(athleteId, user.firstName, newTokens)` and returns
`{ ...user, accessToken: access_token, expiresAt: expires_at }` — note the
returned object keeps the old `refreshToken` field. On failure it returns
`null` without touching the store. -/
def getValidToken (db : Db) (athleteId : Int) (now : Int)
    (refreshResp : Except String Tokens) : TokenResult :=
  match getToken db athleteId with
  | none => ⟨none, db, []⟩
  | some user =>
    if now > user.expiresAt - 300 then
      match refreshResp with
      | Except.ok t =>
        ⟨some { user with accessToken := t.access_token, expiresAt := t.expires_at },
          saveToken db athleteId user.firstName t, [user.refreshToken]⟩
      | Except.error _ => ⟨none, db, [user.refreshToken]⟩
    else ⟨some user, db, []⟩

theorem getToken_saveToken (db : Db) (athleteId : Int) (firstName : Option String)
    (t : Tokens) :
    getToken (saveToken db athleteId firstName t) athleteId = some (mkRecord firstName t) := by
  induction db with
  | nil => simp [saveToken, getToken]
  | cons p rest ih =>
    obtain ⟨k, r⟩ := p
    by_cases h : k = athleteId
    · simp [saveToken, getToken, h]
    · simp [saveToken, getToken, h, ih]

theorem saveToken_length_of_mem (db : Db) (athleteId : Int) (firstName : Option String)
    (t : Tokens) (h : athleteId ∈ keys db) :
    (saveToken db athleteId firstName t).length = db.length := by
  induction db with
  | nil => simp [keys] at h
  | cons p rest ih =>
    obtain ⟨k, r⟩ := p
    by_cases hk : k = athleteId
    · simp [saveToken, hk]
    · have : athleteId ∈ keys rest := by
        simp [keys] at h ⊢
        rcases h with h | h
        · exact absurd h.symm hk
        · exact h
      simp [saveToken, hk, ih this]

theorem mem_keys_saveToken (db : Db) (athleteId : Int) (firstName : Option String)
    (t : Tokens) : athleteId ∈ keys (saveToken db athleteId firstName t) := by
  induction db with
  | nil => simp [saveToken, keys]
  | cons p rest ih =>
    obtain ⟨k, r⟩ := p
    by_cases hk : k = athleteId
    · simp [saveToken, keys, hk]
    · simp only [saveToken, if_neg hk, keys, List.map_cons, List.mem_cons]
      exact Or.inr ih

theorem getToken_eq_none_of_not_mem (db : Db) (athleteId : Int)
    (h : athleteId ∉ keys db) : getToken db athleteId = none := by
  induction db with
  | nil => simp [getToken]
  | cons p rest ih =>
    obtain ⟨k, r⟩ := p
    simp only [keys, List.map_cons, List.mem_cons, not_or] at h
    have hk : ¬k = athleteId := fun hk => h.1 hk.symm
    simp [getToken, hk, ih (by simpa [keys] using h.2)]

theorem countKey_saveToken (db : Db) (athleteId : Int) (firstName : Option String)
    (t : Tokens) (h : countKey db athleteId ≤ 1) :
    countKey (saveToken db athleteId firstName t) athleteId = 1 := by
  induction db with
  | nil => simp [saveToken, countKey]
  | cons p rest ih =>
    obtain ⟨k, r⟩ := p
    by_cases hk : k = athleteId
    · simp only [countKey, List.countP_cons, hk, beq_self_eq_true, if_true] at h ⊢
      simp only [saveToken, if_pos hk, countKey, List.countP_cons, beq_self_eq_true, if_true]
      omega
    · have hb : ((k == athleteId) = true) = False := by simp [hk]
      simp only [countKey, List.countP_cons, hb, if_false] at h ⊢
      simp only [saveToken, if_neg hk, countKey, List.countP_cons, hb, if_false]
      exact ih h

/-- `String.prototype.toLowerCase` on one character, for the basic latin
letters that activity sport types use (`Char.toLower` semantics). -/
def charLower (c : Char) : Char :=
  if 65 ≤ c.toNat ∧ c.toNat ≤ 90 then Char.ofNat (c.toNat + 32) else c

/-- `activity.sport_type.toLowerCase()`. -/
def strLower (s : String) : String := ⟨s.data.map charLower⟩

/-- Two-digit zero padding, as produced inside `toISOString()`. -/
def pad2 (n : Nat) : String := if n < 10 then "0" ++ toString n else toString n

/-- `new Date(t * 1000).toISOString().substr(11, 8)` for a whole number `t`
of seconds: the `HH:MM:SS` part of the ISO timestamp. The hour field is the
hour of day, i.e. `(t / 3600) % 24`. -/
def hhmmss (t : Nat) : String :=
  pad2 ((t / 3600) % 24) ++ ":" ++ pad2 ((t % 3600) / 60) ++ ":" ++ pad2 (t % 60)

/-- `(d / 1000).toFixed(2)` for a whole number `d` of meters: kilometers
rendered with exactly two decimal places, rounding the third decimal half-up
(the decimal idealization of the double rounding `toFixed` performs; exact
for every multiple of ten meters, which covers all values evaluated here). -/
def toFixed2OfMeters (d : Nat) : String :=
  let h := (d + 5) / 10
  toString (h / 100) ++ "." ++ pad2 (h % 100)

/-- Strava activity detail as used by `postActivityToDiscord`
(part_000 lines 343–368): `id`, `distance` (meters), `moving_time`
(seconds), `total_elevation_gain` (meters), `sport_type`. Distance and
elevation gain are modelled as whole meters (`Math.round` on a whole-meter
elevation is the identity, so the rounded value is the field itself). -/
structure Activity where
  id : Int
  distance : Nat
  moving_time : Nat
  total_elevation_gain : Nat
  sport_type : String
deriving Repr, DecidableEq

/-- `user.firstName || "An athlete"` — JS `||` also falls back on the empty
string, which is falsy. -/
def athleteNameOf (user : UserRecord) : String :=
  match user.firstName with
  | some n => if n = "" then "An athlete" else n
  | none => "An athlete"

/-- The `content` string built by `postActivityToDiscord(activity, user)`:
`[name](https://www.strava.com/activities/id) just went for a type of
Xkm for HH:MM:SS, climbing Em.` -/
def discordContent (activity : Activity) (user : UserRecord) : String :=
  "[" ++ athleteNameOf user ++ "](https://www.strava.com/activities/"
    ++ toString activity.id ++ ") just went for a " ++ strLower activity.sport_type
    ++ " of " ++ toFixed2OfMeters activity.distance ++ "km for "
    ++ hhmmss activity.moving_time ++ ", climbing "
    ++ toString activity.total_elevation_gain ++ "m."

/-- Inbound webhook event payload (`req.body`). -/
structure EventPayload where
  object_type : String
  aspect_type : String
  owner_id : Int
  object_id : Int
deriving Repr, DecidableEq

/-- Externally visible actions of the `POST /webhook` handler, in program
order: the HTTP acknowledgment, the store lookup inside `getValidToken`, any
refresh request it issues, the activity-detail fetch, the Discord dispatch,
and error logging. -/
inductive WebAction where
  | ack : Nat → String → WebAction
  | tokenLookup : Int → WebAction
  | refreshAttempt : String → WebAction
  | activityFetch : Int → WebAction
  | dispatch : String → WebAction
  | logError : String → WebAction
deriving Repr, DecidableEq

/-- The work the `POST /webhook` handler performs after acknowledging
(part_000 lines 318–339): for an `activity`/`create` event, resolve a token
via `getValidToken`, fetch the activity (outcome `fetchResp`), and post to
Discord; any failure is caught and logged. Returns the action trace of that
downstream work together with the resulting table state. -/
def processEvent (body : EventPayload) (db : Db) (now : Int)
    (refreshResp : Except String Tokens) (fetchResp : Except String Activity) :
    List WebAction × Db :=
  if body.object_type = "activity" ∧ body.aspect_type = "create" then
    let gv := getValidToken db body.owner_id now refreshResp
    let tokenActs := WebAction.tokenLookup body.owner_id ::
      gv.refreshRequests.map WebAction.refreshAttempt
    match gv.result with
    | none =>
      (tokenActs ++ [WebAction.logError "Failed to process webhook event"], gv.db)
    | some user =>
      match fetchResp with
      | Except.error e =>
        (tokenActs ++ [WebAction.activityFetch body.object_id, WebAction.logError e], gv.db)
      | Except.ok activity =>
        (tokenActs ++ [WebAction.activityFetch body.object_id,
          WebAction.dispatch (discordContent activity user)], gv.db)
  else ([], db)

/-- The full `POST /webhook` handler (part_000 lines 314–340): it sends
`res.status(200).send("EVENT_RECEIVED")` first and only then processes the
event. -/
def webhookPost (body : EventPayload) (db : Db) (now : Int)
    (refreshResp : Except String Tokens) (fetchResp : Except String Activity) :
    List WebAction × Db :=
  (WebAction.ack 200 "EVENT_RECEIVED" :: (processEvent body db now refreshResp fetchResp).1,
    (processEvent body db now refreshResp fetchResp).2)

/-- Number of Discord dispatches in a trace. -/
def dispatchCount (tr : List WebAction) : Nat :=
  tr.countP fun a => match a with | WebAction.dispatch _ => true | _ => false

/-- Response of the `GET /webhook` verification handler: HTTP status and the
`hub.challenge` value echoed in the JSON body (`none` when the body carries
no challenge). -/
structure VerifyResp where
  status : Nat
  challengeEcho : Option String
deriving Repr, DecidableEq

/-- The `GET /webhook` verification handler (part_000 lines 301–312):
`mode === "subscribe" && token === STRAVA_VERIFY_TOKEN` yields
`res.json({ "hub.challenge": challenge })` (status 200), anything else
`res.sendStatus(403)`. The handler reads no state and writes none; the table
is passed through to make that explicit. -/
def webhookVerify (mode tok challenge secret : String) (db : Db) :
    VerifyResp × Db :=
  if mode = "subscribe" ∧ tok = secret then (⟨200, some challenge⟩, db)
  else (⟨403, none⟩, db)

/-- A push subscription as reported by Strava's
`GET /push_subscriptions` endpoint. -/
structure PushSubscription where
  id : Int
  callback_url : String
deriving Repr, DecidableEq

/-- Calls the webhook-subscription reconciler makes against the Strava API,
in order: the subscription-list query, then possibly one create request. -/
inductive SubAction where
  | query : SubAction
  | create : String → String → SubAction
deriving Repr, DecidableEq

/-- `subscribeToStravaWebhooks()` (part_000 lines 404–446): always first
`axios.get(pushSubscriptionsUrl, …)` (outcome `queryResp`); if the returned
list has an entry with `callback_url === callbackUrl` it only logs, otherwise
it issues exactly one `axios.post` creating the subscription with
`callbackUrl` and `verifyToken`. A query failure is caught and logged —
no create is attempted. The function consults no in-process flag. -/
def subscribeToStravaWebhooks (callbackUrl verifyToken : String)
    (queryResp : Except String (List PushSubscription)) : List SubAction :=
  SubAction.query ::
    match queryResp with
    | Except.error _ => []
    | Except.ok subs =>
      match subs.find? (fun sub => sub.callback_url == callbackUrl) with
      | some _ => []
      | none => [SubAction.create callbackUrl verifyToken]

/-- Number of create-subscription calls in a reconciler trace. -/
def createCalls (tr : List SubAction) : Nat :=
  tr.countP fun a => match a with | SubAction.create _ _ => true | _ => false

/-- The token-exchange response used by `GET /auth/callback`:
`access_token, refresh_token, expires_at` plus `athlete.id` and
`athlete.firstname` from `response.data`. -/
structure ExchangeData where
  access_token : String
  refresh_token : String
  expires_at : Int
  athleteId : Int
  firstname : Option String
deriving Repr, DecidableEq

/-- Externally visible actions of the `GET /auth/callback` handler, in
program order. -/
inductive AuthAction where
  | exchange : String → AuthAction
  | storeWrite : Int → AuthAction
  | respond : Nat → String → AuthAction
deriving Repr, DecidableEq

/-- The confirmation page sent on success. -/
def successPage : String :=
  "<h1>Success!</h1><p>Your Strava account is connected. You can close this window.</p>"

/-- The `GET /auth/callback` handler (part_000 lines 270–298): if the
`error` query parameter is present, respond 400 with the error text and do
nothing else; otherwise exchange `code` at the token endpoint (outcome
`exchangeResp`), on success `saveToken(athlete.id, athlete.firstname, …)`
then respond 200 with the confirmation page, on exchange failure respond
500 without writing the store. -/
def authCallback (code : String) (error : Option String)
    (exchangeResp : Except String ExchangeData) (db : Db) :
    List AuthAction × Db :=
  match error with
  | some e => ([AuthAction.respond 400 ("Authorization failed: " ++ e)], db)
  | none =>
    match exchangeResp with
    | Except.error _ =>
      ([AuthAction.exchange code,
        AuthAction.respond 500 "Failed to authenticate with Strava."], db)
    | Except.ok d =>
      ([AuthAction.exchange code, AuthAction.storeWrite d.athleteId,
        AuthAction.respond 200 successPage],
        saveToken db d.athleteId d.firstname ⟨d.access_token, d.refresh_token, d.expires_at⟩)

/-- `pat` occurs as a contiguous substring of `s`. -/
def strContains (s pat : String) : Prop := ∃ a b, s = a ++ pat ++ b

theorem strContains_of_parts (a pat b s : String) (h : s = a ++ (pat ++ b)) :
    strContains s pat := ⟨a, b, by rw [h, String.append_assoc]⟩

theorem dispatchCount_map_refresh (L : List String) :
    dispatchCount (L.map WebAction.refreshAttempt) = 0 := by
  induction L with
  | nil => rfl
  | cons a l ih => simp [dispatchCount, List.countP_cons, ih]

/-- Claim C1 (amended): for a stored credential record, the code refreshes
only when `expiresAt - now < 300` strictly: when `expiresAt - now ≥ 300`
(including exactly 300) `getValidToken` returns the stored record unchanged
and issues no refresh request, and when `expiresAt - now < 300` it sends
exactly one refresh request carrying the stored `refreshToken`. -/
theorem getValidToken_refresh_margin (db : Db) (athleteId now : Int)
    (resp : Except String Tokens) (u : UserRecord)
    (hget : getToken db athleteId = some u) :
    (u.expiresAt - now ≥ 300 →
      (getValidToken db athleteId now resp).result = some u ∧
      (getValidToken db athleteId now resp).refreshRequests = []) ∧
    (u.expiresAt - now < 300 →
      (getValidToken db athleteId now resp).refreshRequests = [u.refreshToken]) := by
  constructor
  · intro h
    have hc : ¬ now > u.expiresAt - 300 := by omega
    simp [getValidToken, hget, hc]
  · intro h
    have hc : now > u.expiresAt - 300 := by omega
    cases resp <;> simp [getValidToken, hget, hc]

/-- Claim C1 witness: a record expiring in 3600 seconds is returned without a
refresh request, one expiring in 200 seconds triggers a refresh request with
the stored refresh token. -/
theorem getValidToken_refresh_margin_witness :
    ((getValidToken [((7 : Int), ⟨some "Ann", "acc7", "ref7", 3600⟩)] 7 0
        (Except.ok ⟨"na", "nr", 9000⟩)).result = some ⟨some "Ann", "acc7", "ref7", 3600⟩ ∧
      (getValidToken [((7 : Int), ⟨some "Ann", "acc7", "ref7", 3600⟩)] 7 0
        (Except.ok ⟨"na", "nr", 9000⟩)).refreshRequests = []) ∧
    (getValidToken [((7 : Int), ⟨some "Ann", "acc7", "ref7", 200⟩)] 7 0
        (Except.ok ⟨"na", "nr", 9000⟩)).refreshRequests = ["ref7"] :=
  ⟨(getValidToken_refresh_margin [((7 : Int), ⟨some "Ann", "acc7", "ref7", 3600⟩)] 7 0
      (Except.ok ⟨"na", "nr", 9000⟩) ⟨some "Ann", "acc7", "ref7", 3600⟩ (by decide)).1
      (by decide),
    (getValidToken_refresh_margin [((7 : Int), ⟨some "Ann", "acc7", "ref7", 200⟩)] 7 0
      (Except.ok ⟨"na", "nr", 9000⟩) ⟨some "Ann", "acc7", "ref7", 200⟩ (by decide)).2
      (by decide)⟩

/-- Claim C1 counterexample: at exactly `expiresAt - now = 300` the claim
demands a refresh request, but the code (condition
`Date.now() / 1000 > user.expiresAt - 300`, strict) issues none and returns
the stored token unchanged. -/
theorem getValidToken_boundary_counterexample :
    getToken [((42 : Int), ⟨some "Kim", "oldAcc", "oldRef", 1000300⟩)] 42 =
      some ⟨some "Kim", "oldAcc", "oldRef", 1000300⟩ ∧
    (1000300 : Int) - 1000000 ≤ 300 ∧
    (getValidToken [((42 : Int), ⟨some "Kim", "oldAcc", "oldRef", 1000300⟩)] 42 1000000
        (Except.ok ⟨"newAcc", "newRef", 2000000⟩)).refreshRequests = [] ∧
    (getValidToken [((42 : Int), ⟨some "Kim", "oldAcc", "oldRef", 1000300⟩)] 42 1000000
        (Except.ok ⟨"newAcc", "newRef", 2000000⟩)).result =
      some ⟨some "Kim", "oldAcc", "oldRef", 1000300⟩ := by
  decide

/-- Claim C2: when the refresh endpoint fails, `getValidToken` leaves the
store exactly as it was and returns `null` rather than a token. -/
theorem getValidToken_refresh_failure_no_write (db : Db) (athleteId now : Int)
    (e : String) (u : UserRecord)
    (hget : getToken db athleteId = some u)
    (hexp : now > u.expiresAt - 300) :
    (getValidToken db athleteId now (Except.error e)).db = db ∧
    (getValidToken db athleteId now (Except.error e)).result = none := by
  simp [getValidToken, hget, hexp]

/-- Claim C2 witness: a failing refresh for an expired record leaves the
one-row store untouched and yields no token. -/
theorem getValidToken_refresh_failure_no_write_witness :
    (getValidToken [((7 : Int), ⟨some "Ann", "acc7", "ref7", 100⟩)] 7 500
        (Except.error "ECONNREFUSED")).db = [((7 : Int), ⟨some "Ann", "acc7", "ref7", 100⟩)] ∧
    (getValidToken [((7 : Int), ⟨some "Ann", "acc7", "ref7", 100⟩)] 7 500
        (Except.error "ECONNREFUSED")).result = none :=
  getValidToken_refresh_failure_no_write [((7 : Int), ⟨some "Ann", "acc7", "ref7", 100⟩)]
    7 500 "ECONNREFUSED" ⟨some "Ann", "acc7", "ref7", 100⟩ (by decide) (by decide)

/-- Claim C3: when the refresh endpoint succeeds with a new triple,
`getValidToken` persists exactly that triple as a single upsert preserving
the stored `firstName`, the store afterwards holds precisely the issued
`(accessToken, refreshToken, expiresAt)`, and the access token in the
returned record is the one the platform issued. -/
theorem getValidToken_refresh_success_persists (db : Db) (athleteId now : Int)
    (t : Tokens) (u : UserRecord)
    (hget : getToken db athleteId = some u)
    (hexp : now > u.expiresAt - 300) :
    (getValidToken db athleteId now (Except.ok t)).db =
      saveToken db athleteId u.firstName t ∧
    getToken (getValidToken db athleteId now (Except.ok t)).db athleteId =
      some ⟨u.firstName, t.access_token, t.refresh_token, t.expires_at⟩ ∧
    ∃ r, (getValidToken db athleteId now (Except.ok t)).result = some r ∧
      r.accessToken = t.access_token := by
  have hdb : (getValidToken db athleteId now (Except.ok t)).db =
      saveToken db athleteId u.firstName t := by
    simp [getValidToken, hget, hexp]
  refine ⟨hdb, ?_, ?_⟩
  · rw [hdb]
    exact getToken_saveToken db athleteId u.firstName t
  · exact ⟨{ u with accessToken := t.access_token, expiresAt := t.expires_at },
      by simp [getValidToken, hget, hexp], rfl⟩

/-- Claim C3 witness: a successful refresh of an expired record persists the
new triple under the stored first name and returns the new access token. -/
theorem getValidToken_refresh_success_persists_witness :
    (getValidToken [((7 : Int), ⟨some "Ann", "acc7", "ref7", 100⟩)] 7 500
        (Except.ok ⟨"na", "nr", 9000⟩)).db =
      saveToken [((7 : Int), ⟨some "Ann", "acc7", "ref7", 100⟩)] 7 (some "Ann")
        ⟨"na", "nr", 9000⟩ ∧
    getToken (getValidToken [((7 : Int), ⟨some "Ann", "acc7", "ref7", 100⟩)] 7 500
        (Except.ok ⟨"na", "nr", 9000⟩)).db 7 = some ⟨some "Ann", "na", "nr", 9000⟩ ∧
    ∃ r, (getValidToken [((7 : Int), ⟨some "Ann", "acc7", "ref7", 100⟩)] 7 500
        (Except.ok ⟨"na", "nr", 9000⟩)).result = some r ∧ r.accessToken = "na" :=
  getValidToken_refresh_success_persists [((7 : Int), ⟨some "Ann", "acc7", "ref7", 100⟩)]
    7 500 ⟨"na", "nr", 9000⟩ ⟨some "Ann", "acc7", "ref7", 100⟩ (by decide) (by decide)

/-- Claim C4: `getToken` immediately after `saveToken` returns exactly the
fields last written; a second upsert for the same id does not grow the
table; at most one row per id is preserved by an upsert; and `getToken` for
an id never written returns `none` rather than raising. -/
theorem saveToken_getToken_roundtrip (db : Db) (athleteId : Int)
    (fn fn2 : Option String) (t t2 : Tokens) :
    getToken (saveToken db athleteId fn t) athleteId =
      some ⟨fn, t.access_token, t.refresh_token, t.expires_at⟩ ∧
    (saveToken (saveToken db athleteId fn t) athleteId fn2 t2).length =
      (saveToken db athleteId fn t).length ∧
    (countKey db athleteId ≤ 1 →
      countKey (saveToken db athleteId fn t) athleteId = 1) ∧
    (athleteId ∉ keys db → getToken db athleteId = none) :=
  ⟨getToken_saveToken db athleteId fn t,
    saveToken_length_of_mem _ athleteId fn2 t2 (mem_keys_saveToken db athleteId fn t),
    fun h => countKey_saveToken db athleteId fn t h,
    fun h => getToken_eq_none_of_not_mem db athleteId h⟩

/-- Claim C4 witness: on a one-row table for another athlete, an upsert for
athlete 7 round-trips, re-upserting does not add a row, the key stays
unique, and a never-written id reads back as `none`. -/
theorem saveToken_getToken_roundtrip_witness :
    getToken (saveToken [((3 : Int), ⟨none, "a3", "r3", 50⟩)] 7 (some "Ann")
        ⟨"a7", "r7", 60⟩) 7 = some ⟨some "Ann", "a7", "r7", 60⟩ ∧
    (saveToken (saveToken [((3 : Int), ⟨none, "a3", "r3", 50⟩)] 7 (some "Ann")
        ⟨"a7", "r7", 60⟩) 7 (some "Ann2") ⟨"a8", "r8", 70⟩).length =
      (saveToken [((3 : Int), ⟨none, "a3", "r3", 50⟩)] 7 (some "Ann")
        ⟨"a7", "r7", 60⟩).length ∧
    countKey (saveToken [((3 : Int), ⟨none, "a3", "r3", 50⟩)] 7 (some "Ann")
        ⟨"a7", "r7", 60⟩) 7 = 1 ∧
    getToken [((3 : Int), (⟨none, "a3", "r3", 50⟩ : UserRecord))] 7 = none := by
  have h := saveToken_getToken_roundtrip [((3 : Int), ⟨none, "a3", "r3", 50⟩)] 7
    (some "Ann") (some "Ann2") ⟨"a7", "r7", 60⟩ ⟨"a8", "r8", 70⟩
  exact ⟨h.1, h.2.1, h.2.2.1 (by decide), h.2.2.2 (by decide)⟩

/-- Claim C5: the `POST /webhook` handler acknowledges with
200 `EVENT_RECEIVED` as its very first action, before any token lookup,
refresh, activity fetch or dispatch, for every payload and every outcome of
the downstream calls — in particular the acknowledgment is in the trace no
matter which downstream step fails. -/
theorem webhookPost_ack_first (body : EventPayload) (db : Db) (now : Int)
    (refreshResp : Except String Tokens) (fetchResp : Except String Activity) :
    (webhookPost body db now refreshResp fetchResp).1.head? =
      some (WebAction.ack 200 "EVENT_RECEIVED") ∧
    WebAction.ack 200 "EVENT_RECEIVED" ∈ (webhookPost body db now refreshResp fetchResp).1 := by
  simp [webhookPost]

/-- Claim C6: the verification GET returns 200 echoing the literal challenge
exactly when `mode = "subscribe"` and the supplied verify token equals the
configured secret; every other combination yields 403 with no challenge in
the body and no change to any state. -/
theorem webhookVerify_challenge (mode tok challenge secret : String) (db : Db) :
    ((mode = "subscribe" ∧ tok = secret) →
      webhookVerify mode tok challenge secret db = (⟨200, some challenge⟩, db)) ∧
    (¬(mode = "subscribe" ∧ tok = secret) →
      (webhookVerify mode tok challenge secret db).1.status = 403 ∧
      (webhookVerify mode tok challenge secret db).1.challengeEcho = none ∧
      (webhookVerify mode tok challenge secret db).2 = db) := by
  constructor
  · intro h
    simp [webhookVerify, h]
  · intro h
    simp [webhookVerify, h]

/-- Claim C6 witness: with the correct secret the challenge `ch42` is echoed
with status 200; with a wrong verify token the status is 403, no challenge is
echoed, and the store is untouched. -/
theorem webhookVerify_challenge_witness :
    webhookVerify "subscribe" "sec" "ch42" "sec" [] = (⟨200, some "ch42"⟩, []) ∧
    ((webhookVerify "subscribe" "bad" "ch42" "sec" []).1.status = 403 ∧
      (webhookVerify "subscribe" "bad" "ch42" "sec" []).1.challengeEcho = none ∧
      (webhookVerify "subscribe" "bad" "ch42" "sec" []).2 = []) :=
  ⟨(webhookVerify_challenge "subscribe" "sec" "ch42" "sec" []).1 ⟨rfl, rfl⟩,
    (webhookVerify_challenge "subscribe" "bad" "ch42" "sec" []).2 (by decide)⟩

/-- Claim C7: every invocation of the reconciler queries the platform first;
given a successful query response, it issues zero create-subscription calls
when a subscription with this deployment's callback URL already exists and
exactly one such call otherwise. The function takes no in-process
subscription flag — its decision depends only on the query response. -/
theorem subscribeToStravaWebhooks_reconcile (callbackUrl verifyToken : String)
    (subs : List PushSubscription) :
    (subscribeToStravaWebhooks callbackUrl verifyToken (Except.ok subs)).head? =
      some SubAction.query ∧
    ((∃ sub ∈ subs, sub.callback_url = callbackUrl) →
      createCalls (subscribeToStravaWebhooks callbackUrl verifyToken (Except.ok subs)) = 0) ∧
    (¬(∃ sub ∈ subs, sub.callback_url = callbackUrl) →
      createCalls (subscribeToStravaWebhooks callbackUrl verifyToken (Except.ok subs)) = 1) := by
  refine ⟨rfl, ?_, ?_⟩
  · intro h
    have hs : (subs.find? (fun sub => sub.callback_url == callbackUrl)).isSome := by
      rw [List.find?_isSome]
      obtain ⟨x, hx, he⟩ := h
      exact ⟨x, hx, by simp [he]⟩
    obtain ⟨v, hv⟩ := Option.isSome_iff_exists.mp hs
    simp [subscribeToStravaWebhooks, hv, createCalls]
  · intro h
    have hn : subs.find? (fun sub => sub.callback_url == callbackUrl) = none := by
      rw [List.find?_eq_none]
      intro x hx hbeq
      exact h ⟨x, hx, by simpa using hbeq⟩
    simp [subscribeToStravaWebhooks, hn, createCalls]

/-- Claim C7 witness: with a matching subscription reported the reconciler
issues zero create calls; with none reported it issues exactly one; in both
cases the query comes first. -/
theorem subscribeToStravaWebhooks_reconcile_witness :
    (subscribeToStravaWebhooks "https://app.example/webhook" "vt"
        (Except.ok [⟨11, "https://app.example/webhook"⟩])).head? = some SubAction.query ∧
    createCalls (subscribeToStravaWebhooks "https://app.example/webhook" "vt"
        (Except.ok [⟨11, "https://app.example/webhook"⟩])) = 0 ∧
    createCalls (subscribeToStravaWebhooks "https://app.example/webhook" "vt"
        (Except.ok [⟨11, "https://other.example/webhook"⟩])) = 1 :=
  ⟨(subscribeToStravaWebhooks_reconcile "https://app.example/webhook" "vt"
      [⟨11, "https://app.example/webhook"⟩]).1,
    (subscribeToStravaWebhooks_reconcile "https://app.example/webhook" "vt"
      [⟨11, "https://app.example/webhook"⟩]).2.1 ⟨⟨11, "https://app.example/webhook"⟩,
        by decide, rfl⟩,
    (subscribeToStravaWebhooks_reconcile "https://app.example/webhook" "vt"
      [⟨11, "https://other.example/webhook"⟩]).2.2 (by decide)⟩

/-- Claim C8: with the `error` query parameter present the OAuth callback
responds 400 carrying the error text and never touches the store (whatever
the exchange would have returned); otherwise, when the code exchange
succeeds, the issued triple together with the athlete id and first name is
upserted — the store write precedes the 200 confirmation in the trace — and
the record can be read back exactly. -/
theorem authCallback_error_and_success (code e : String)
    (resp : Except String ExchangeData) (d : ExchangeData) (db : Db) :
    authCallback code (some e) resp db =
      ([AuthAction.respond 400 ("Authorization failed: " ++ e)], db) ∧
    authCallback code none (Except.ok d) db =
      ([AuthAction.exchange code, AuthAction.storeWrite d.athleteId,
        AuthAction.respond 200 successPage],
        saveToken db d.athleteId d.firstname ⟨d.access_token, d.refresh_token, d.expires_at⟩) ∧
    getToken (authCallback code none (Except.ok d) db).2 d.athleteId =
      some ⟨d.firstname, d.access_token, d.refresh_token, d.expires_at⟩ :=
  ⟨rfl, rfl, getToken_saveToken db d.athleteId d.firstname
    ⟨d.access_token, d.refresh_token, d.expires_at⟩⟩

/-- Claim C10: after a successful refresh the record `getValidToken` returns
keeps the pre-refresh `refreshToken` (only `accessToken` and `expiresAt` are
updated, `firstName` is carried over), while the store now holds the newly
issued `refreshToken`; whenever the platform rotated the token, returned and
stored records therefore disagree on `refreshToken`. -/
theorem getValidToken_returned_refreshToken_stale (db : Db) (athleteId now : Int)
    (t : Tokens) (u : UserRecord)
    (hget : getToken db athleteId = some u)
    (hexp : now > u.expiresAt - 300) :
    ∃ r s, (getValidToken db athleteId now (Except.ok t)).result = some r ∧
      getToken (getValidToken db athleteId now (Except.ok t)).db athleteId = some s ∧
      r.refreshToken = u.refreshToken ∧
      r.accessToken = t.access_token ∧
      r.expiresAt = t.expires_at ∧
      r.firstName = u.firstName ∧
      s.refreshToken = t.refresh_token ∧
      (t.refresh_token ≠ u.refreshToken → r.refreshToken ≠ s.refreshToken) := by
  have hdb : (getValidToken db athleteId now (Except.ok t)).db =
      saveToken db athleteId u.firstName t := by
    simp [getValidToken, hget, hexp]
  have hres : (getValidToken db athleteId now (Except.ok t)).result =
      some { u with accessToken := t.access_token, expiresAt := t.expires_at } := by
    simp [getValidToken, hget, hexp]
  refine ⟨{ u with accessToken := t.access_token, expiresAt := t.expires_at },
    mkRecord u.firstName t, hres, ?_, rfl, rfl, rfl, rfl, rfl, ?_⟩
  · rw [hdb]
    exact getToken_saveToken db athleteId u.firstName t
  · intro h hcontra
    exact h hcontra.symm

/-- Claim C10 witness: refreshing an expired record for athlete 7 returns a
record still carrying `ref7` while the store now carries `nr`, and the two
disagree. -/
theorem getValidToken_returned_refreshToken_stale_witness :
    ∃ r s, (getValidToken [((7 : Int), ⟨some "Ann", "acc7", "ref7", 100⟩)] 7 500
        (Except.ok ⟨"na", "nr", 9000⟩)).result = some r ∧
      getToken (getValidToken [((7 : Int), ⟨some "Ann", "acc7", "ref7", 100⟩)] 7 500
        (Except.ok ⟨"na", "nr", 9000⟩)).db 7 = some s ∧
      r.refreshToken = "ref7" ∧
      r.accessToken = "na" ∧
      r.expiresAt = 9000 ∧
      r.firstName = some "Ann" ∧
      s.refreshToken = "nr" ∧
      ("nr" ≠ "ref7" → r.refreshToken ≠ s.refreshToken) :=
  getValidToken_returned_refreshToken_stale [((7 : Int), ⟨some "Ann", "acc7", "ref7", 100⟩)]
    7 500 ⟨"na", "nr", 9000⟩ ⟨some "Ann", "acc7", "ref7", 100⟩ (by decide) (by decide)

/-- Claim C9: every processed `activity`/`create` event whose activity fetch
succeeded dispatches exactly one outbound message, namely the formatted
content, and that content contains the athlete's human-readable name — the
stored first name when present and nonempty, the generic label
`An athlete` when absent or empty — the lower-cased sport type, the distance
in kilometers with two decimals followed by `km`, the moving time as
`HH:MM:SS`, the whole-meter elevation gain followed by `m`, and a link
containing the activity id. -/
theorem processEvent_dispatch_content (body : EventPayload) (db : Db) (now : Int)
    (refreshResp : Except String Tokens) (activity : Activity) (user : UserRecord)
    (hobj : body.object_type = "activity") (hasp : body.aspect_type = "create")
    (hres : (getValidToken db body.owner_id now refreshResp).result = some user) :
    dispatchCount (processEvent body db now refreshResp (Except.ok activity)).1 = 1 ∧
    WebAction.dispatch (discordContent activity user) ∈
      (processEvent body db now refreshResp (Except.ok activity)).1 ∧
    strContains (discordContent activity user) (athleteNameOf user) ∧
    (∀ name, user.firstName = some name → name ≠ "" → athleteNameOf user = name) ∧
    ((user.firstName = none ∨ user.firstName = some "") →
      athleteNameOf user = "An athlete") ∧
    strContains (discordContent activity user) (strLower activity.sport_type) ∧
    strContains (discordContent activity user)
      (toFixed2OfMeters activity.distance ++ "km") ∧
    strContains (discordContent activity user) (hhmmss activity.moving_time) ∧
    strContains (discordContent activity user)
      (toString activity.total_elevation_gain ++ "m") ∧
    strContains (discordContent activity user)
      ("https://www.strava.com/activities/" ++ toString activity.id) := by
  have key : (processEvent body db now refreshResp (Except.ok activity)).1 =
      WebAction.tokenLookup body.owner_id ::
        ((getValidToken db body.owner_id now refreshResp).refreshRequests.map
          WebAction.refreshAttempt
        ++ [WebAction.activityFetch body.object_id,
            WebAction.dispatch (discordContent activity user)]) := by
    simp [processEvent, hobj, hasp, hres]
  refine ⟨?_, ?_, ?_, ?_, ?_, ?_, ?_, ?_, ?_, ?_⟩
  · rw [key]
    have hmap := dispatchCount_map_refresh
      (getValidToken db body.owner_id now refreshResp).refreshRequests
    simp only [dispatchCount, List.countP_cons, List.countP_append] at hmap ⊢
    simp [hmap]
  · rw [key]
    simp
  · apply strContains_of_parts "[" (athleteNameOf user)
      ("](https://www.strava.com/activities/" ++ toString activity.id
        ++ ") just went for a " ++ strLower activity.sport_type ++ " of "
        ++ toFixed2OfMeters activity.distance ++ "km for "
        ++ hhmmss activity.moving_time ++ ", climbing "
        ++ toString activity.total_elevation_gain ++ "m.")
    simp only [discordContent, String.append_assoc]
  · intro name hname hne
    simp [athleteNameOf, hname, hne]
  · intro habs
    rcases habs with h | h <;> simp [athleteNameOf, h]
  · apply strContains_of_parts
      ("[" ++ athleteNameOf user ++ "](https://www.strava.com/activities/"
        ++ toString activity.id ++ ") just went for a ")
      (strLower activity.sport_type)
      (" of " ++ toFixed2OfMeters activity.distance ++ "km for "
        ++ hhmmss activity.moving_time ++ ", climbing "
        ++ toString activity.total_elevation_gain ++ "m.")
    simp only [discordContent, String.append_assoc]
  · apply strContains_of_parts
      ("[" ++ athleteNameOf user ++ "](https://www.strava.com/activities/"
        ++ toString activity.id ++ ") just went for a "
        ++ strLower activity.sport_type ++ " of ")
      (toFixed2OfMeters activity.distance ++ "km")
      (" for " ++ hhmmss activity.moving_time ++ ", climbing "
        ++ toString activity.total_elevation_gain ++ "m.")
    unfold discordContent
    rw [show ("km for " : String) = "km" ++ " for " from rfl]
    simp only [String.append_assoc]
  · apply strContains_of_parts
      ("[" ++ athleteNameOf user ++ "](https://www.strava.com/activities/"
        ++ toString activity.id ++ ") just went for a "
        ++ strLower activity.sport_type ++ " of "
        ++ toFixed2OfMeters activity.distance ++ "km for ")
      (hhmmss activity.moving_time)
      (", climbing " ++ toString activity.total_elevation_gain ++ "m.")
    simp only [discordContent, String.append_assoc]
  · apply strContains_of_parts
      ("[" ++ athleteNameOf user ++ "](https://www.strava.com/activities/"
        ++ toString activity.id ++ ") just went for a "
        ++ strLower activity.sport_type ++ " of "
        ++ toFixed2OfMeters activity.distance ++ "km for "
        ++ hhmmss activity.moving_time ++ ", climbing ")
      (toString activity.total_elevation_gain ++ "m")
      (".")
    unfold discordContent
    rw [show ("m." : String) = "m" ++ "." from rfl]
    simp only [String.append_assoc]
  · apply strContains_of_parts ("[" ++ athleteNameOf user ++ "](")
      ("https://www.strava.com/activities/" ++ toString activity.id)
      (") just went for a " ++ strLower activity.sport_type
        ++ " of " ++ toFixed2OfMeters activity.distance
        ++ "km for " ++ hhmmss activity.moving_time ++ ", climbing "
        ++ toString activity.total_elevation_gain ++ "m.")
    unfold discordContent
    rw [show ("](https://www.strava.com/activities/" : String) =
      "](" ++ "https://www.strava.com/activities/" from rfl]
    simp only [String.append_assoc]

/-- Claim C9 witness: the §8 stub — event for athlete 42 and activity 999,
stored first name `Kim`, activity `{distance 10000, moving_time 3600,
total_elevation_gain 120, sport_type "Run"}` — dispatches one message whose
content contains `Kim`, `run`, `10.00km`, `01:00:00`, `120m` and the
activity link with id 999; and for a record with no stored first name the
dispatched content contains the fallback label `An athlete`. -/
theorem processEvent_dispatch_content_witness :
    (dispatchCount (processEvent ⟨"activity", "create", 42, 999⟩
        [((42 : Int), ⟨some "Kim", "acc", "ref", 2000000000⟩)] 0 (Except.error "unused")
        (Except.ok ⟨999, 10000, 3600, 120, "Run"⟩)).1 = 1 ∧
      WebAction.dispatch (discordContent ⟨999, 10000, 3600, 120, "Run"⟩
          ⟨some "Kim", "acc", "ref", 2000000000⟩) ∈
        (processEvent ⟨"activity", "create", 42, 999⟩
          [((42 : Int), ⟨some "Kim", "acc", "ref", 2000000000⟩)] 0 (Except.error "unused")
          (Except.ok ⟨999, 10000, 3600, 120, "Run"⟩)).1 ∧
      strContains (discordContent ⟨999, 10000, 3600, 120, "Run"⟩
        ⟨some "Kim", "acc", "ref", 2000000000⟩)
        (athleteNameOf ⟨some "Kim", "acc", "ref", 2000000000⟩) ∧
      strContains (discordContent ⟨999, 10000, 3600, 120, "Run"⟩
        ⟨some "Kim", "acc", "ref", 2000000000⟩) (strLower "Run") ∧
      strContains (discordContent ⟨999, 10000, 3600, 120, "Run"⟩
        ⟨some "Kim", "acc", "ref", 2000000000⟩) (toFixed2OfMeters 10000 ++ "km") ∧
      strContains (discordContent ⟨999, 10000, 3600, 120, "Run"⟩
        ⟨some "Kim", "acc", "ref", 2000000000⟩) (hhmmss 3600) ∧
      strContains (discordContent ⟨999, 10000, 3600, 120, "Run"⟩
        ⟨some "Kim", "acc", "ref", 2000000000⟩) (toString (120 : Nat) ++ "m") ∧
      strContains (discordContent ⟨999, 10000, 3600, 120, "Run"⟩
        ⟨some "Kim", "acc", "ref", 2000000000⟩)
        ("https://www.strava.com/activities/" ++ toString (999 : Int))) ∧
    (dispatchCount (processEvent ⟨"activity", "create", 43, 999⟩
        [((43 : Int), ⟨none, "acc", "ref", 2000000000⟩)] 0 (Except.error "unused")
        (Except.ok ⟨999, 10000, 3600, 120, "Run"⟩)).1 = 1 ∧
      strContains (discordContent ⟨999, 10000, 3600, 120, "Run"⟩
        ⟨none, "acc", "ref", 2000000000⟩) (athleteNameOf ⟨none, "acc", "ref", 2000000000⟩) ∧
      athleteNameOf ⟨none, "acc", "ref", 2000000000⟩ = "An athlete") ∧
    athleteNameOf ⟨some "Kim", "acc", "ref", 2000000000⟩ = "Kim" ∧
    strLower "Run" = "run" ∧
    toFixed2OfMeters 10000 ++ "km" = "10.00km" ∧
    hhmmss 3600 = "01:00:00" ∧
    toString (120 : Nat) ++ "m" = "120m" ∧
    "https://www.strava.com/activities/" ++ toString (999 : Int) =
      "https://www.strava.com/activities/999" := by
  have hKim := processEvent_dispatch_content ⟨"activity", "create", 42, 999⟩
    [((42 : Int), ⟨some "Kim", "acc", "ref", 2000000000⟩)] 0 (Except.error "unused")
    ⟨999, 10000, 3600, 120, "Run"⟩ ⟨some "Kim", "acc", "ref", 2000000000⟩
    rfl rfl (by decide)
  have hAnon := processEvent_dispatch_content ⟨"activity", "create", 43, 999⟩
    [((43 : Int), ⟨none, "acc", "ref", 2000000000⟩)] 0 (Except.error "unused")
    ⟨999, 10000, 3600, 120, "Run"⟩ ⟨none, "acc", "ref", 2000000000⟩
    rfl rfl (by decide)
  exact ⟨⟨hKim.1, hKim.2.1, hKim.2.2.1, hKim.2.2.2.2.2.1, hKim.2.2.2.2.2.2.1,
      hKim.2.2.2.2.2.2.2.1, hKim.2.2.2.2.2.2.2.2.1, hKim.2.2.2.2.2.2.2.2.2⟩,
    ⟨hAnon.1, hAnon.2.2.1, hAnon.2.2.2.2.1 (Or.inl rfl)⟩,
    hKim.2.2.2.1 "Kim" rfl (by decide),
    by decide, by decide, by decide, by decide, by decide⟩
